import Mathlib

/-
  Verification development for the prayer-catchability engine of the
  catch-a-prayer repository (server/prayer_service.py, with the time
  normalizer of server/prayer_times_api.py).

  Modelling conventions:
  * Wall-clock times are minutes.  A mosque-local datetime is its wall-clock
    value in minutes (Int); .time() is the value modulo 1440 and .date() the
    floor quotient, matching Python floor division for the positive modulus.
  * Absolute instants are minutes since an epoch in UTC (Int); a timezone is
    a fixed offset in minutes (Int), adequate for the fixed-offset scenarios
    of the claims (September DST offsets for the two hardcoded zones).
  * Python exceptions are modelled with the Except monad (PyExn below);
    the unbound name prayers in _evaluate_prayer_catchability is a NameError.
  * time.fromisoformat is modelled on the zero-padded HH:MM strings this
    repository produces and the claims quantify over; any other string is a
    ValueError.
  * The message and time_until_next_prayer fields of NextPrayer are omitted:
    no claim constrains them (time_until_next_prayer is never set by
    prayer_service.py and defaults to None).
  * ISO-8601 parsing of the client clock (_parse_user_current_time) is
    abstracted: the traveler current instant and timezone are taken as values.
    The external timezonefinder lookup is an oracle parameter.
-/

inductive PyExn where
  | valueError
  | nameError
  | recursionError
deriving DecidableEq

inductive PrayerName where
  | fajr
  | dhuhr
  | asr
  | maghrib
  | isha
  | jumaa
deriving DecidableEq

inductive PrayerStatus where
  | canCatchWithImam
  | canCatchAfterImam
  | canCatchDelayed
  | cannotCatch
  | missed
deriving DecidableEq

/-- models.Prayer (jumaa_sessions omitted: unused by the classifier). -/
structure Prayer where
  prayerName : PrayerName
  adhanTime : String
  iqamaTime : Option String := none
deriving DecidableEq

/-- models.NextPrayer (message and time_until_next_prayer omitted, see header). -/
structure NextPrayer where
  prayer : PrayerName
  status : PrayerStatus
  canCatch : Bool
  travelTimeMinutes : Nat
  timeRemainingMinutes : Int
  arrivalTime : Int
  prayerTime : String
  isDelayed : Bool := false
deriving DecidableEq

/- ---------- character and string utilities ---------- -/

def digitVal (c : Char) : Nat := c.toNat - 48

def isSpaceChar (c : Char) : Bool :=
  c = ' ' || c = '\t' || c = '\n' || c = '\r' || c = '\x0b' || c = '\x0c'

/-- Python str.strip for ASCII whitespace. -/
def stripChars (cs : List Char) : List Char :=
  ((cs.dropWhile isSpaceChar).reverse.dropWhile isSpaceChar).reverse

/-- re.sub of one-or-more whitespace by a single space: a run of whitespace
collapses to one space character. -/
def collapseWs : List Char → List Char
  | [] => []
  | [c] => if isSpaceChar c then [' '] else [c]
  | c1 :: c2 :: rest =>
    if isSpaceChar c1 && isSpaceChar c2 then collapseWs (c2 :: rest)
    else (if isSpaceChar c1 then ' ' else c1) :: collapseWs (c2 :: rest)

/-- The regex fragment matching one-or-two digits, a colon and two digits at
the head of the list: greedy two-digit hour first, backtracking to one digit,
exactly as the regex engine does.  Returns hour, minute and the unconsumed
remainder. -/
def matchHourMin (cs : List Char) : Option (Nat × Nat × List Char) :=
  let two : Option (Nat × Nat × List Char) :=
    match cs with
    | a :: b :: c :: d :: e :: rest =>
      if a.isDigit && b.isDigit && (c = ':') && d.isDigit && e.isDigit then
        some (10 * digitVal a + digitVal b, 10 * digitVal d + digitVal e, rest)
      else none
    | _ => none
  match two with
  | some r => some r
  | none =>
    match cs with
    | a :: c :: d :: e :: rest =>
      if a.isDigit && (c = ':') && d.isDigit && e.isDigit then
        some (digitVal a, 10 * digitVal d + digitVal e, rest)
      else none
    | _ => none

/-- The optional AM or PM group (case alternatives exactly as in the regex);
some true means PM. -/
def matchAmpm (cs : List Char) : Option Bool :=
  match cs with
  | 'A' :: 'M' :: _ => some false
  | 'P' :: 'M' :: _ => some true
  | 'a' :: 'm' :: _ => some false
  | 'p' :: 'm' :: _ => some true
  | _ => none

/-- One attempt of the _parse_time regex at the current position. -/
def matchTimeAt (cs : List Char) : Option (Nat × Nat × Option Bool) :=
  match matchHourMin cs with
  | none => none
  | some (h, m, rest) => some (h, m, matchAmpm (rest.dropWhile isSpaceChar))

/-- re.search: leftmost position at which the pattern matches. -/
def searchTime : List Char → Option (Nat × Nat × Option Bool)
  | [] => none
  | c :: rest =>
    match matchTimeAt (c :: rest) with
    | some r => some r
    | none => searchTime rest

/-- Python format 02d padding. -/
def pad2 (n : Nat) : String := if n < 10 then "0" ++ toString n else toString n

def fmtHM (h m : Nat) : String := pad2 h ++ ":" ++ pad2 m

/-- PrayerTimeService._parse_time: whitespace normalization, regex search for
a clock time with optional AM or PM, 12-hour conversion, zero-padded output.
It performs no range validation on the resulting hour or minute. -/
def parse_time (s : String) : Option String :=
  match searchTime (collapseWs (stripChars s.toList)) with
  | none => none
  | some (h, m, ampm) =>
    let hour : Nat :=
      match ampm with
      | some true => if h ≠ 12 then h + 12 else h
      | some false => if h = 12 then 0 else h
      | none => h
    some (fmtHM hour m)

/-- The anchored full-match regex of _normalize_time: one-or-two digits, a
colon, exactly two digits, end of string. -/
def matchFullHM (cs : List Char) : Option (Nat × Nat) :=
  match matchHourMin cs with
  | some (h, m, []) => some (h, m)
  | _ => none

/-- PrayerTimesAPI._normalize_time with explicit recursion fuel.  When the
full match is out of range the code falls through to the anchored-at-start
regex, whose group is the whole string again, so the recursion never
terminates: Python raises RecursionError once the interpreter stack limit is
hit, modelled by exhausting the fuel. -/
def normalize_time_fuel : Nat → List Char → Except PyExn (Option String)
  | 0, _ => .error .recursionError
  | fuel + 1, cs0 =>
    let cs := stripChars cs0
    let r1 : Option String :=
      match matchFullHM cs with
      | some (h, m) => if h ≤ 23 ∧ m ≤ 59 then some (fmtHM h m) else none
      | none => none
    match r1 with
    | some t => .ok (some t)
    | none =>
      match matchHourMin cs with
      | some (_, _, rest) => normalize_time_fuel fuel (cs.take (cs.length - rest.length))
      | none => .ok none

/-- PrayerTimesAPI._normalize_time (fuel plays the interpreter stack limit). -/
def normalize_time (s : String) : Except PyExn (Option String) :=
  normalize_time_fuel 1000 s.toList

/-- datetime.time.fromisoformat as used on the catalog strings of this
repository: a zero-padded HH:MM wall-clock, returned as minutes of the day;
anything else raises ValueError (modelled by none). -/
def fromisoformat (s : String) : Option Nat :=
  match s.toList with
  | [h1, h2, c, m1, m2] =>
    if h1.isDigit && h2.isDigit && (c = ':') && m1.isDigit && m2.isDigit then
      let h := 10 * digitVal h1 + digitVal h2
      let m := 10 * digitVal m1 + digitVal m2
      if h ≤ 23 ∧ m ≤ 59 then some (60 * h + m) else none
    else none
  | _ => none

/- ---------- wall-clock arithmetic ---------- -/

/-- datetime .time() in minutes: the wall-clock value modulo 1440 (Python
modulo for a positive modulus is the Euclidean remainder). -/
def todOf (wc : Int) : Nat := (wc % 1440).toNat

/-- datetime .date() as a day index: floor quotient by 1440. -/
def dateOf (wc : Int) : Int := wc / 1440

/-- ArrivalCalculator step 1 (line 223): the arrival instant is the current
instant plus the travel duration; durations are timezone invariant. -/
def compute_arrival_instant (userInstant : Int) (travel : Nat) : Int :=
  userInstant + travel

/-- astimezone: the wall-clock reading of an absolute instant in a
fixed-offset timezone. -/
def wallClockIn (instant tz : Int) : Int := instant + tz

/- ---------- the classifier (PrayerTimeService) ---------- -/

/-- prayer.iqama_time or prayer.adhan_time: Python or-truthiness, so an empty
iqama string also falls back to the adhan time. -/
def iqamaOrAdhan (p : Prayer) : String :=
  match p.iqamaTime with
  | some t => if t = "" then p.adhanTime else t
  | none => p.adhanTime

/-- The sort keys of get_next_prayer line 234: CPython computes every key, in
list order, before sorting; the first malformed string raises ValueError. -/
def sortKeys : List Prayer → Except PyExn (List (Nat × Prayer))
  | [] => .ok []
  | p :: rest =>
    match fromisoformat (iqamaOrAdhan p) with
    | none => .error .valueError
    | some k => (sortKeys rest).map (fun ks => (k, p) :: ks)

/-- Stable insertion: an element goes before the strictly larger keys and
before equal keys coming from later list positions. -/
def insertByKey (x : Nat × Prayer) : List (Nat × Prayer) → List (Nat × Prayer)
  | [] => [x]
  | y :: ys => if x.1 ≤ y.1 then x :: y :: ys else y :: insertByKey x ys

def isortByKey : List (Nat × Prayer) → List (Nat × Prayer)
  | [] => []
  | x :: xs => insertByKey x (isortByKey xs)

/-- sorted(prayers, key=time.fromisoformat(iqama or adhan)): a stable sort by
parsed Iqama-or-Adhan time. -/
def sortPrayersByIqama (prayers : List Prayer) : Except PyExn (List Prayer) :=
  (sortKeys prayers).map (fun ks => (isortByKey ks).map (fun kp => kp.2))

/-- PrayerTimeService._find_current_prayer_in_progress.  The congregation
window end is (datetime.combine(today, iqama) + 15 min).time(): the date part
cancels under .time(), leaving (iqama + 15) mod 1440.  minutes_remaining is
(combine(today, window end) - current).total_seconds() / 60, whose date part
cancels as well, leaving window end minus current time of day.  The Python
if/else assigning can_catch and status is flattened into per-field
conditionals. -/
def find_current_prayer_in_progress :
    List Prayer → Int → Int → Nat → Except PyExn (Option NextPrayer)
  | [], _, _, _ => .ok none
  | p :: rest, cur, arr, travel =>
    match fromisoformat (iqamaOrAdhan p) with
    | none => .error .valueError
    | some iq =>
      if iq ≤ todOf cur ∧ todOf cur ≤ (iq + 15) % 1440 then
        .ok (some
          { prayer := p.prayerName
            status :=
              if todOf arr ≤ (iq + 15) % 1440 then
                (if iq < todOf arr then .canCatchAfterImam else .canCatchWithImam)
              else .cannotCatch
            canCatch := if todOf arr ≤ (iq + 15) % 1440 then true else false
            travelTimeMinutes := travel
            timeRemainingMinutes := (((iq + 15) % 1440 : Nat) : Int) - (todOf cur : Int)
            arrivalTime := arr
            prayerTime := iqamaOrAdhan p })
      else find_current_prayer_in_progress rest cur arr travel

/-- PrayerTimeService._evaluate_prayer_catchability.  The source also parses
prayer.adhan_time (falling back to the iqama value when the string is empty);
the result is unused but the parse can raise, so it is kept.  In the final
branch the source reads the name prayers, which is not bound in this method:
Python raises NameError there.  The congregation window end time of day is
(iqama + 15) mod 1440 after the date part cancels under .time(). -/
def evaluate_prayer_catchability (p : Prayer) (cur arr : Int) (travel : Nat) :
    Except PyExn NextPrayer :=
  match fromisoformat (iqamaOrAdhan p) with
  | none => .error .valueError
  | some iq =>
    match (if p.adhanTime ≠ "" then fromisoformat p.adhanTime else some iq) with
    | none => .error .valueError
    | some _ =>
      if todOf arr ≤ iq then
        .ok { prayer := p.prayerName
              status := .canCatchWithImam
              canCatch := true
              travelTimeMinutes := travel
              timeRemainingMinutes := max 0 (dateOf cur * 1440 + (iq : Int) - cur)
              arrivalTime := arr
              prayerTime := iqamaOrAdhan p }
      else if todOf arr ≤ (iq + 15) % 1440 then
        .ok { prayer := p.prayerName
              status := .canCatchAfterImam
              canCatch := true
              travelTimeMinutes := travel
              timeRemainingMinutes := max 0 (dateOf cur * 1440 + (iq : Int) - cur)
              arrivalTime := arr
              prayerTime := iqamaOrAdhan p }
      else .error .nameError

/-- prayer_order.index plus the index+1 lookup of _get_next_prayer_adhan_time:
the successor in the fixed cycle.  Isha is last (index check fails) and Jumaa
is absent from prayer_order (ValueError, caught by the surrounding except),
both falling through to the special case. -/
def nextInOrder : PrayerName → Option PrayerName
  | .fajr => some .dhuhr
  | .dhuhr => some .asr
  | .asr => some .maghrib
  | .maghrib => some .isha
  | .isha => none
  | .jumaa => none

/-- PrayerTimeService._get_next_prayer_adhan_time.  Inside the try block a
ValueError from fromisoformat on the next prayer adhan string is caught and
ignored, falling through; the Fajr sunrise special case parses the current
adhan string outside any try, so that ValueError escapes.  The sunrise time of
day is (fajr adhan + 90) mod 1440 after the date part cancels under .time(). -/
def get_next_prayer_adhan_time (current : Prayer) (prayers : List Prayer) :
    Except PyExn (Option Nat) :=
  let tryRes : Option Nat :=
    match nextInOrder current.prayerName with
    | none => none
    | some nm =>
      match prayers.find? (fun q => q.prayerName = nm) with
      | none => none
      | some np => fromisoformat np.adhanTime
  match tryRes with
  | some t => .ok (some t)
  | none =>
    if current.prayerName = PrayerName.fajr then
      match fromisoformat current.adhanTime with
      | none => .error .valueError
      | some fa => .ok (some ((fa + 90) % 1440))
    else .ok none

/-- The no-prayers-left-today tail of _find_next_upcoming_prayer: tomorrow
Fajr, optimistic, no travel-time check.  time_remaining_minutes is
(combine(tomorrow, fajr time) - current).total_seconds() / 60 minus the
travel minutes. -/
def tomorrowFajrBranch (prayers : List Prayer) (cur arr : Int) (travel : Nat) :
    Except PyExn (Option NextPrayer) :=
  match prayers.find? (fun q => q.prayerName = PrayerName.fajr) with
  | none => .ok none
  | some fp =>
    match fromisoformat (iqamaOrAdhan fp) with
    | none => .error .valueError
    | some ft =>
      .ok (some
        { prayer := fp.prayerName
          status := .canCatchWithImam
          canCatch := true
          travelTimeMinutes := travel
          timeRemainingMinutes := ((dateOf cur + 1) * 1440 + (ft : Int) - cur) - travel
          arrivalTime := arr
          prayerTime := iqamaOrAdhan fp })

/-- The today-loop of _find_next_upcoming_prayer: the first prayer whose
Iqama-or-Adhan time of day is strictly after the current time of day is
evaluated; otherwise the tomorrow-Fajr tail runs on the full list. -/
def findUpcomingLoop (prayers : List Prayer) (cur arr : Int) (travel : Nat) :
    List Prayer → Except PyExn (Option NextPrayer)
  | [] => tomorrowFajrBranch prayers cur arr travel
  | p :: rest =>
    match fromisoformat (iqamaOrAdhan p) with
    | none => .error .valueError
    | some iq =>
      if todOf cur < iq then (evaluate_prayer_catchability p cur arr travel).map some
      else findUpcomingLoop prayers cur arr travel rest

/-- PrayerTimeService._find_next_upcoming_prayer. -/
def find_next_upcoming_prayer (prayers : List Prayer) (cur arr : Int) (travel : Nat) :
    Except PyExn (Option NextPrayer) :=
  findUpcomingLoop prayers cur arr travel prayers

/-- PrayerTimeService._find_makeup_prayer_opportunity.  Estimated sunrise is
(fajr adhan + 90) mod 1440 after the date part cancels under .time();
time_remaining is (combine(today, dhuhr adhan) - current) in minutes. -/
def find_makeup_prayer_opportunity (prayers : List Prayer) (cur arr : Int)
    (travel : Nat) : Except PyExn (Option NextPrayer) :=
  match prayers.find? (fun q => q.prayerName = PrayerName.fajr),
        prayers.find? (fun q => q.prayerName = PrayerName.dhuhr) with
  | some fp, some dp =>
    match fromisoformat fp.adhanTime with
    | none => .error .valueError
    | some fa =>
      match fromisoformat dp.adhanTime with
      | none => .error .valueError
      | some da =>
        if (fa + 90) % 1440 < todOf cur ∧ todOf cur < da then
          .ok (some
            { prayer := fp.prayerName
              status := if todOf arr < da then .canCatchDelayed else .cannotCatch
              canCatch := if todOf arr < da then true else false
              travelTimeMinutes := travel
              timeRemainingMinutes := dateOf cur * 1440 + (da : Int) - cur
              arrivalTime := arr
              prayerTime := fp.adhanTime
              isDelayed := true })
        else .ok none
  | _, _ => .ok none

/-- PrayerTimeService._find_best_prayer_opportunity: the three rules in strict
priority order, first success returned. -/
def find_best_prayer_opportunity (prayers : List Prayer) (cur arr : Int)
    (travel : Nat) : Except PyExn (Option NextPrayer) :=
  match find_current_prayer_in_progress prayers cur arr travel with
  | .error e => .error e
  | .ok (some np) => .ok (some np)
  | .ok none =>
    match find_next_upcoming_prayer prayers cur arr travel with
    | .error e => .error e
    | .ok (some np) => .ok (some np)
    | .ok none => find_makeup_prayer_opportunity prayers cur arr travel

/- ---------- timezone resolution and the entry point ---------- -/

/-- Fixed offsets in minutes for the two hardcoded zones at the September
dates of the test scenarios (Pacific daylight and Mountain daylight time). -/
def tzLosAngeles : Int := -420

def tzDenver : Int := -360

/-- PrayerTimeService._get_mosque_timezone.  The timezonefinder lookup is the
oracle parameter (returning none when the library is unavailable, fails, or
finds nothing); the two static bounding boxes follow; the fallback string is
an Option, none standing for an absent or unparseable timezone name. -/
def get_mosque_timezone (lookup : ℚ × ℚ → Option Int)
    (coords : Option (ℚ × ℚ)) (fallbackTz : Option Int) : Option Int :=
  match coords with
  | some (lat, lng) =>
    match lookup (lat, lng) with
    | some tz => some tz
    | none =>
      if 37 ≤ lat ∧ lat ≤ 38 ∧ -123 ≤ lng ∧ lng ≤ -121 then some tzLosAngeles
      else if 39 ≤ lat ∧ lat ≤ 40 ∧ -106 ≤ lng ∧ lng ≤ -104 then some tzDenver
      else fallbackTz
  | none => fallbackTz

/-- get_next_prayer lines 211-214: when _get_mosque_timezone returns nothing
the mosque timezone variable is set to the timezone of the parsed traveler
time. -/
def mosqueTzUsed (lookup : ℚ × ℚ → Option Int) (coords : Option (ℚ × ℚ))
    (fallbackTz : Option Int) (userTz : Int) : Int :=
  (get_mosque_timezone lookup coords fallbackTz).getD userTz

/-- PrayerTimeService.get_next_prayer: empty-catalog early return, mosque
timezone resolution, arrival computation, conversion of both instants into the
mosque timezone, sort, and the best-opportunity search. -/
def get_next_prayer (prayers : List Prayer) (travel : Nat) (userInstant : Int)
    (userTz : Int) (lookup : ℚ × ℚ → Option Int) (coords : Option (ℚ × ℚ))
    (fallbackTz : Option Int) : Except PyExn (Option NextPrayer) :=
  match prayers with
  | [] => .ok none
  | _ =>
    let mtz := mosqueTzUsed lookup coords fallbackTz userTz
    let curWc := wallClockIn userInstant mtz
    let arrWc := wallClockIn (compute_arrival_instant userInstant travel) mtz
    match sortPrayersByIqama prayers with
    | .error e => .error e
    | .ok sorted => find_best_prayer_opportunity sorted curWc arrWc travel

/- ---------- result summaries (decision fields only) ---------- -/

/-- The decision fields of a result: prayer name, status, can_catch. -/
def npSummary (np : NextPrayer) : PrayerName × PrayerStatus × Bool :=
  (np.prayer, np.status, np.canCatch)

def resSummary (r : Except PyExn (Option NextPrayer)) :
    Except PyExn (Option (PrayerName × PrayerStatus × Bool)) :=
  r.map (Option.map npSummary)

/- ---------- concrete catalogs from the repository ---------- -/

/-- The standard September SF Bay Area catalog of the test suite and of
_get_default_prayers. -/
def stdPrayers : List Prayer :=
  [ { prayerName := .fajr, adhanTime := "05:50", iqamaTime := some "06:00" },
    { prayerName := .dhuhr, adhanTime := "12:45", iqamaTime := some "13:00" },
    { prayerName := .asr, adhanTime := "16:15", iqamaTime := some "16:30" },
    { prayerName := .maghrib, adhanTime := "19:10", iqamaTime := some "19:20" },
    { prayerName := .isha, adhanTime := "20:30", iqamaTime := some "20:45" } ]

/-- The Denver catalog of the cross-timezone test. -/
def denverPrayers : List Prayer :=
  [ { prayerName := .fajr, adhanTime := "05:50", iqamaTime := some "06:00" },
    { prayerName := .dhuhr, adhanTime := "14:10", iqamaTime := some "14:15" },
    { prayerName := .asr, adhanTime := "16:15", iqamaTime := some "16:30" },
    { prayerName := .maghrib, adhanTime := "19:10", iqamaTime := some "19:20" },
    { prayerName := .isha, adhanTime := "20:30", iqamaTime := some "20:45" } ]

/- ---------- decidability and statement-side conditions ---------- -/

instance {ε α : Type} [DecidableEq ε] [DecidableEq α] : DecidableEq (Except ε α) := fun a b =>
  match a, b with
  | .ok x, .ok y =>
    if h : x = y then .isTrue (by rw [h]) else .isFalse (by simp [h])
  | .error x, .error y =>
    if h : x = y then .isTrue (by rw [h]) else .isFalse (by simp [h])
  | .ok _, .error _ => .isFalse (by simp)
  | .error _, .ok _ => .isFalse (by simp)

/-- Statement-side condition: the Iqama-or-Adhan string of the prayer parses
and the congregation window of the code does not contain the current time of
day. -/
def noWindowB (cur : Int) (q : Prayer) : Bool :=
  match fromisoformat (iqamaOrAdhan q) with
  | none => false
  | some iq => !(decide (iq ≤ todOf cur ∧ todOf cur ≤ (iq + 15) % 1440))

/-- Statement-side condition: the Iqama-or-Adhan string parses and its time of
day is not strictly after the current time of day (the prayer is not
upcoming). -/
def notUpcomingB (cur : Int) (q : Prayer) : Bool :=
  match fromisoformat (iqamaOrAdhan q) with
  | none => false
  | some iq => decide (iq ≤ todOf cur)

def evSummary (r : Except PyExn NextPrayer) :
    Except PyExn (PrayerName × PrayerStatus × Bool) :=
  r.map npSummary

/- ---------- helper lemmas ---------- -/

theorem todOf_shift (cur d : Int) : todOf (cur + 1440 * d) = todOf cur := by
  unfold todOf; omega

theorem find_current_none (prayers : List Prayer) (cur arr : Int) (travel : Nat)
    (h : prayers.all (noWindowB cur) = true) :
    find_current_prayer_in_progress prayers cur arr travel = .ok none := by
  induction prayers with
  | nil => rfl
  | cons p rest ih =>
    rw [List.all_cons, Bool.and_eq_true] at h
    obtain ⟨hp, hrest⟩ := h
    cases hq : fromisoformat (iqamaOrAdhan p) with
    | none => simp [noWindowB, hq] at hp
    | some iq =>
      simp only [noWindowB, hq, Bool.not_eq_true', decide_eq_false_iff_not] at hp
      simp only [find_current_prayer_in_progress, hq]
      rw [if_neg hp]
      exact ih hrest

theorem find_current_window (pre post : List Prayer) (p : Prayer) (iq : Nat)
    (cur arr : Int) (travel : Nat)
    (hpre : pre.all (noWindowB cur) = true)
    (hp : fromisoformat (iqamaOrAdhan p) = some iq)
    (h1 : iq ≤ todOf cur) (h2 : todOf cur ≤ (iq + 15) % 1440) :
    find_current_prayer_in_progress (pre ++ p :: post) cur arr travel =
      .ok (some
        { prayer := p.prayerName
          status :=
            if todOf arr ≤ (iq + 15) % 1440 then
              (if iq < todOf arr then .canCatchAfterImam else .canCatchWithImam)
            else .cannotCatch
          canCatch := if todOf arr ≤ (iq + 15) % 1440 then true else false
          travelTimeMinutes := travel
          timeRemainingMinutes := (((iq + 15) % 1440 : Nat) : Int) - (todOf cur : Int)
          arrivalTime := arr
          prayerTime := iqamaOrAdhan p }) := by
  induction pre with
  | nil =>
    simp only [List.nil_append, find_current_prayer_in_progress, hp]
    rw [if_pos ⟨h1, h2⟩]
  | cons q qs ih =>
    rw [List.all_cons, Bool.and_eq_true] at hpre
    obtain ⟨hq1, hqs⟩ := hpre
    cases hq : fromisoformat (iqamaOrAdhan q) with
    | none => simp [noWindowB, hq] at hq1
    | some iqq =>
      simp only [noWindowB, hq, Bool.not_eq_true', decide_eq_false_iff_not] at hq1
      simp only [List.cons_append, find_current_prayer_in_progress, hq]
      rw [if_neg hq1]
      exact ih hqs

theorem upcoming_loop_eval (orig : List Prayer) (pre post : List Prayer)
    (p : Prayer) (iq : Nat) (cur arr : Int) (travel : Nat)
    (hpre : pre.all (notUpcomingB cur) = true)
    (hp : fromisoformat (iqamaOrAdhan p) = some iq)
    (hup : todOf cur < iq) :
    findUpcomingLoop orig cur arr travel (pre ++ p :: post) =
      (evaluate_prayer_catchability p cur arr travel).map some := by
  induction pre with
  | nil =>
    simp only [List.nil_append, findUpcomingLoop, hp]
    rw [if_pos hup]
  | cons q qs ih =>
    rw [List.all_cons, Bool.and_eq_true] at hpre
    obtain ⟨hq1, hqs⟩ := hpre
    cases hq : fromisoformat (iqamaOrAdhan q) with
    | none => simp [notUpcomingB, hq] at hq1
    | some iqq =>
      simp only [notUpcomingB, hq, decide_eq_true_eq] at hq1
      simp only [List.cons_append, findUpcomingLoop, hq]
      rw [if_neg (not_lt.mpr hq1)]
      exact ih hqs

theorem upcoming_loop_none (orig : List Prayer) (sub : List Prayer)
    (cur arr : Int) (travel : Nat)
    (hsub : sub.all (notUpcomingB cur) = true) :
    findUpcomingLoop orig cur arr travel sub =
      tomorrowFajrBranch orig cur arr travel := by
  induction sub with
  | nil => rfl
  | cons q qs ih =>
    rw [List.all_cons, Bool.and_eq_true] at hsub
    obtain ⟨hq1, hqs⟩ := hsub
    cases hq : fromisoformat (iqamaOrAdhan q) with
    | none => simp [notUpcomingB, hq] at hq1
    | some iqq =>
      simp only [notUpcomingB, hq, decide_eq_true_eq] at hq1
      simp only [findUpcomingLoop, hq]
      rw [if_neg (not_lt.mpr hq1)]
      exact ih hqs

theorem resSummary_error_iff (r : Except PyExn (Option NextPrayer)) (e : PyExn) :
    resSummary r = .error e ↔ r = .error e := by
  cases r <;> simp [resSummary, Except.map]

theorem resSummary_ok_none_iff (r : Except PyExn (Option NextPrayer)) :
    resSummary r = .ok none ↔ r = .ok none := by
  cases r with
  | error e => simp [resSummary, Except.map]
  | ok a => cases a <;> simp [resSummary, Except.map]

theorem resSummary_ok_some_iff (r : Except PyExn (Option NextPrayer))
    (s : PrayerName × PrayerStatus × Bool) :
    resSummary r = .ok (some s) ↔ ∃ np, r = .ok (some np) ∧ npSummary np = s := by
  cases r with
  | error e => simp [resSummary, Except.map]
  | ok a => cases a <;> simp [resSummary, Except.map]

theorem resSummary_map_some (r : Except PyExn NextPrayer) :
    resSummary (r.map some) = (evSummary r).map some := by
  cases r <;> rfl

theorem current_summary_shift (prayers : List Prayer) (cur arr d1 d2 : Int)
    (travel : Nat) :
    resSummary (find_current_prayer_in_progress prayers (cur + 1440 * d1) (arr + 1440 * d2) travel)
      = resSummary (find_current_prayer_in_progress prayers cur arr travel) := by
  induction prayers with
  | nil => rfl
  | cons p rest ih =>
    simp only [find_current_prayer_in_progress]
    cases hq : fromisoformat (iqamaOrAdhan p) with
    | none => simp only [hq]
    | some iq =>
      simp only [hq, todOf_shift cur d1, todOf_shift arr d2]
      by_cases hw : iq ≤ todOf cur ∧ todOf cur ≤ (iq + 15) % 1440
      · simp only [if_pos hw, resSummary, npSummary, Except.map, Option.map]
      · simp only [if_neg hw]
        exact ih

theorem eval_summary_shift (p : Prayer) (cur arr d1 d2 : Int) (travel : Nat) :
    evSummary (evaluate_prayer_catchability p (cur + 1440 * d1) (arr + 1440 * d2) travel)
      = evSummary (evaluate_prayer_catchability p cur arr travel) := by
  simp only [evaluate_prayer_catchability]
  cases hq : fromisoformat (iqamaOrAdhan p) with
  | none => simp only [hq]
  | some iq =>
    simp only [hq]
    cases ha : (if p.adhanTime ≠ "" then fromisoformat p.adhanTime else some iq) with
    | none => simp only [ha]
    | some a =>
      simp only [ha, todOf_shift arr d2]
      by_cases h1 : todOf arr ≤ iq
      · simp only [if_pos h1, evSummary, npSummary, Except.map]
      · by_cases h2 : todOf arr ≤ (iq + 15) % 1440
        · simp only [if_neg h1, if_pos h2, evSummary, npSummary, Except.map]
        · simp only [if_neg h1, if_neg h2]

theorem tomorrow_summary_shift (prayers : List Prayer) (cur arr d1 d2 : Int)
    (travel : Nat) :
    resSummary (tomorrowFajrBranch prayers (cur + 1440 * d1) (arr + 1440 * d2) travel)
      = resSummary (tomorrowFajrBranch prayers cur arr travel) := by
  simp only [tomorrowFajrBranch]
  cases hf : prayers.find? (fun q => q.prayerName = PrayerName.fajr) with
  | none => simp only [hf]
  | some fp =>
    simp only [hf]
    cases hp : fromisoformat (iqamaOrAdhan fp) with
    | none => simp only [hp]
    | some ft => simp only [hp, resSummary, npSummary, Except.map, Option.map]

theorem loop_summary_shift (prayers : List Prayer) (cur arr d1 d2 : Int)
    (travel : Nat) (sub : List Prayer) :
    resSummary (findUpcomingLoop prayers (cur + 1440 * d1) (arr + 1440 * d2) travel sub)
      = resSummary (findUpcomingLoop prayers cur arr travel sub) := by
  induction sub with
  | nil => exact tomorrow_summary_shift prayers cur arr d1 d2 travel
  | cons p rest ih =>
    simp only [findUpcomingLoop]
    cases hq : fromisoformat (iqamaOrAdhan p) with
    | none => simp only [hq]
    | some iq =>
      simp only [hq, todOf_shift cur d1]
      by_cases h1 : todOf cur < iq
      · simp only [if_pos h1]
        rw [resSummary_map_some, resSummary_map_some, eval_summary_shift]
      · simp only [if_neg h1]
        exact ih

theorem makeup_summary_shift (prayers : List Prayer) (cur arr d1 d2 : Int)
    (travel : Nat) :
    resSummary (find_makeup_prayer_opportunity prayers (cur + 1440 * d1) (arr + 1440 * d2) travel)
      = resSummary (find_makeup_prayer_opportunity prayers cur arr travel) := by
  simp only [find_makeup_prayer_opportunity]
  cases hf : prayers.find? (fun q => q.prayerName = PrayerName.fajr) with
  | none => simp only [hf]
  | some fp =>
    cases hd : prayers.find? (fun q => q.prayerName = PrayerName.dhuhr) with
    | none => simp only [hf, hd]
    | some dp =>
      simp only [hf, hd]
      cases ha : fromisoformat fp.adhanTime with
      | none => simp only [ha]
      | some fa =>
        simp only [ha]
        cases hb : fromisoformat dp.adhanTime with
        | none => simp only [hb]
        | some da =>
          simp only [hb, todOf_shift cur d1, todOf_shift arr d2]
          by_cases hw : (fa + 90) % 1440 < todOf cur ∧ todOf cur < da
          · simp only [if_pos hw, resSummary, npSummary, Except.map, Option.map]
          · simp only [if_neg hw]

theorem best_summary_shift (prayers : List Prayer) (cur arr d1 d2 : Int)
    (travel : Nat) :
    resSummary (find_best_prayer_opportunity prayers (cur + 1440 * d1) (arr + 1440 * d2) travel)
      = resSummary (find_best_prayer_opportunity prayers cur arr travel) := by
  have hc := current_summary_shift prayers cur arr d1 d2 travel
  have hu := loop_summary_shift prayers cur arr d1 d2 travel prayers
  have hm := makeup_summary_shift prayers cur arr d1 d2 travel
  simp only [find_best_prayer_opportunity, find_next_upcoming_prayer]
  cases h1 : find_current_prayer_in_progress prayers cur arr travel with
  | error e =>
    rw [h1] at hc
    have h1s := (resSummary_error_iff _ e).mp hc
    simp only [h1s, h1]
  | ok a =>
    cases a with
    | some np =>
      rw [h1] at hc
      obtain ⟨np2, h1s, hnp⟩ := (resSummary_ok_some_iff _ _).mp (by simpa [resSummary, Except.map] using hc)
      simp only [h1s, h1, resSummary, Except.map, Option.map, hnp]
    | none =>
      rw [h1] at hc
      have h1s := (resSummary_ok_none_iff _).mp hc
      simp only [h1s, h1]
      cases h2 : findUpcomingLoop prayers cur arr travel prayers with
      | error e =>
        rw [h2] at hu
        have h2s := (resSummary_error_iff _ e).mp hu
        simp only [h2s, h2]
      | ok b =>
        cases b with
        | some np =>
          rw [h2] at hu
          obtain ⟨np2, h2s, hnp⟩ := (resSummary_ok_some_iff _ _).mp (by simpa [resSummary, Except.map] using hu)
          simp only [h2s, h2, resSummary, Except.map, Option.map, hnp]
        | none =>
          rw [h2] at hu
          have h2s := (resSummary_ok_none_iff _).mp hu
          simp only [h2s, h2]
          exact hm

theorem normalize_fuel_range (fuel : Nat) :
    ∀ (cs : List Char) (t : String), normalize_time_fuel fuel cs = .ok (some t) →
      ∃ hh mm, hh ≤ 23 ∧ mm ≤ 59 ∧ t = fmtHM hh mm := by
  induction fuel with
  | zero => intro cs t h; simp [normalize_time_fuel] at h
  | succ n ih =>
    intro cs t h
    simp only [normalize_time_fuel] at h
    cases hf : matchFullHM (stripChars cs) with
    | some pr =>
      obtain ⟨hh, mm⟩ := pr
      rw [hf] at h
      simp only [] at h
      by_cases hr : hh ≤ 23 ∧ mm ≤ 59
      · rw [if_pos hr] at h
        simp only [Except.ok.injEq, Option.some.injEq] at h
        exact ⟨hh, mm, hr.1, hr.2, h.symm⟩
      · rw [if_neg hr] at h
        cases hm2 : matchHourMin (stripChars cs) with
        | some trip => rw [hm2] at h; exact ih _ _ h
        | none => rw [hm2] at h; simp at h
    | none =>
      rw [hf] at h
      cases hm2 : matchHourMin (stripChars cs) with
      | some trip => rw [hm2] at h; exact ih _ _ h
      | none => rw [hm2] at h; simp at h

theorem normalize_loops_25 : ∀ (fuel : Nat),
    normalize_time_fuel fuel ("25:00".toList) = .error .recursionError := by
  intro fuel
  induction fuel with
  | zero => rfl
  | succ n ih =>
    have step : normalize_time_fuel (n + 1) ("25:00".toList)
        = normalize_time_fuel n ("25:00".toList) := rfl
    rw [step]
    exact ih

/- ---------- the claims ---------- -/

/-- C1 counterexample: standard catalog, current mosque time 06:30 (tod 390,
strictly after the Fajr Iqama 06:00 and strictly before estimated sunrise
07:30), arrival 06:45, no congregation window contains 06:30.  The claim says
the classifier returns Fajr with is_delayed true and status CAN_CATCH_DELAYED;
the code returns Dhuhr with CAN_CATCH_WITH_IMAM and is_delayed false. -/
theorem c1_counterexample :
    get_next_prayer stdPrayers 15 390 0 (fun _ => none) none none =
      .ok (some { prayer := PrayerName.dhuhr, status := .canCatchWithImam,
                  canCatch := true, travelTimeMinutes := 15,
                  timeRemainingMinutes := 390, arrivalTime := 405,
                  prayerTime := "13:00", isDelayed := false }) ∧
    PrayerName.dhuhr ≠ PrayerName.fajr := by decide

/-- C1 (amended): under the premises of the claim (catalog contains Fajr, the
current time is strictly after the Fajr Iqama-or-Adhan time and strictly
before estimated sunrise, and no congregation window contains the current
time), the classifier has no Fajr-delayed branch: it hands the first prayer
whose Iqama-or-Adhan time is strictly after the current time (e.g. Dhuhr) to
the catchability evaluation, whose successful results never carry is_delayed
or CAN_CATCH_DELAYED. -/
theorem c1_no_fajr_delayed_branch (pre post : List Prayer) (p fp : Prayer)
    (iq fiq : Nat) (cur arr : Int) (travel : Nat)
    (hnowin : (pre ++ p :: post).all (noWindowB cur) = true)
    (hfp : fp ∈ pre ++ p :: post) (hfpn : fp.prayerName = PrayerName.fajr)
    (hfiq : fromisoformat (iqamaOrAdhan fp) = some fiq)
    (hafter : fiq < todOf cur) (hsun : todOf cur < fiq + 90)
    (hpre : pre.all (notUpcomingB cur) = true)
    (hp : fromisoformat (iqamaOrAdhan p) = some iq)
    (hup : todOf cur < iq) :
    find_best_prayer_opportunity (pre ++ p :: post) cur arr travel =
      (evaluate_prayer_catchability p cur arr travel).map some ∧
    ∀ np, evaluate_prayer_catchability p cur arr travel = .ok np →
      np.isDelayed = false ∧ np.status ≠ PrayerStatus.canCatchDelayed := by
  constructor
  · simp only [find_best_prayer_opportunity, find_next_upcoming_prayer]
    rw [find_current_none _ cur arr travel hnowin]
    rw [upcoming_loop_eval (pre ++ p :: post) pre post p iq cur arr travel hpre hp hup]
    cases evaluate_prayer_catchability p cur arr travel <;> simp [Except.map]
  · intro np h
    simp only [evaluate_prayer_catchability] at h
    rw [hp] at h
    simp only [] at h
    cases ha : (if p.adhanTime ≠ "" then fromisoformat p.adhanTime else some iq) with
    | none => rw [ha] at h; exact absurd h (by simp)
    | some a =>
      rw [ha] at h
      by_cases h1 : todOf arr ≤ iq
      · rw [if_pos h1] at h
        simp only [Except.ok.injEq] at h
        subst h
        exact ⟨rfl, fun hc => by cases hc⟩
      · by_cases h2 : todOf arr ≤ (iq + 15) % 1440
        · rw [if_neg h1, if_pos h2] at h
          simp only [Except.ok.injEq] at h
          subst h
          exact ⟨rfl, fun hc => by cases hc⟩
        · rw [if_neg h1, if_neg h2] at h
          exact absurd h (by simp)

/-- C1 witness: the amended statement applied to the standard catalog at
current 06:30, arrival 06:45. -/
theorem c1_witness :
    find_best_prayer_opportunity stdPrayers 390 405 15 =
      (evaluate_prayer_catchability
        { prayerName := .dhuhr, adhanTime := "12:45", iqamaTime := some "13:00" }
        390 405 15).map some := by
  have h := c1_no_fajr_delayed_branch
    [{ prayerName := .fajr, adhanTime := "05:50", iqamaTime := some "06:00" }]
    [{ prayerName := .asr, adhanTime := "16:15", iqamaTime := some "16:30" },
     { prayerName := .maghrib, adhanTime := "19:10", iqamaTime := some "19:20" },
     { prayerName := .isha, adhanTime := "20:30", iqamaTime := some "20:45" }]
    { prayerName := .dhuhr, adhanTime := "12:45", iqamaTime := some "13:00" }
    { prayerName := .fajr, adhanTime := "05:50", iqamaTime := some "06:00" }
    780 360 390 405 15
    (by decide) (by decide) (by decide) (by decide) (by decide) (by decide)
    (by decide) (by decide) (by decide)
  exact h.1

/-- C2 counterexample: Isha with Iqama 23:50 (minute 1430) and current time
23:55 (minute 1435) lies inside the window from the Iqama to Iqama plus 15
minutes, yet the classifier returns nothing: the code computes the window end
as a time of day, 00:05, which wraps past midnight, and the containment check
fails. -/
theorem c2_counterexample :
    ((1430 : Nat) ≤ 1435 ∧ (1435 : Nat) ≤ 1430 + 15) ∧
    get_next_prayer
      [{ prayerName := .isha, adhanTime := "23:40", iqamaTime := some "23:50" }]
      1 1435 0 (fun _ => none) none none = .ok none := by decide

/-- C2 (amended): provided the congregation window does not wrap past
midnight (equivalently, the containment check of the code holds) and the
prayer is the first one in sorted order whose window contains the current
time, the classifier returns it with: CAN_CATCH_WITH_IMAM when
arrival is at or before the Iqama, CAN_CATCH_AFTER_IMAM when arrival is in
the window after the Iqama, CANNOT_CATCH with can_catch false when arrival is
past the window end; minutes_remaining is the minutes from the current time
to the window end. -/
theorem c2_congregation_window (pre post : List Prayer) (p : Prayer) (iq : Nat)
    (cur arr : Int) (travel : Nat)
    (hpre : pre.all (noWindowB cur) = true)
    (hp : fromisoformat (iqamaOrAdhan p) = some iq)
    (h1 : iq ≤ todOf cur) (h2 : todOf cur ≤ (iq + 15) % 1440) :
    find_best_prayer_opportunity (pre ++ p :: post) cur arr travel =
      .ok (some
        { prayer := p.prayerName
          status :=
            if todOf arr ≤ (iq + 15) % 1440 then
              (if iq < todOf arr then .canCatchAfterImam else .canCatchWithImam)
            else .cannotCatch
          canCatch := if todOf arr ≤ (iq + 15) % 1440 then true else false
          travelTimeMinutes := travel
          timeRemainingMinutes := (((iq + 15) % 1440 : Nat) : Int) - (todOf cur : Int)
          arrivalTime := arr
          prayerTime := iqamaOrAdhan p }) := by
  simp only [find_best_prayer_opportunity]
  rw [find_current_window pre post p iq cur arr travel hpre hp h1 h2]

/-- C2 witness: the amended statement on the standard catalog at current
06:05, arrival 06:10 (inside the Fajr window, after the Iqama). -/
theorem c2_witness :
    find_best_prayer_opportunity stdPrayers 365 370 5 =
      .ok (some { prayer := PrayerName.fajr, status := .canCatchAfterImam,
                  canCatch := true, travelTimeMinutes := 5,
                  timeRemainingMinutes := 10, arrivalTime := 370,
                  prayerTime := "06:00", isDelayed := false }) := by
  have h := c2_congregation_window []
    [{ prayerName := .dhuhr, adhanTime := "12:45", iqamaTime := some "13:00" },
     { prayerName := .asr, adhanTime := "16:15", iqamaTime := some "16:30" },
     { prayerName := .maghrib, adhanTime := "19:10", iqamaTime := some "19:20" },
     { prayerName := .isha, adhanTime := "20:30", iqamaTime := some "20:45" }]
    { prayerName := .fajr, adhanTime := "05:50", iqamaTime := some "06:00" }
    360 365 370 5 (by decide) (by decide) (by decide) (by decide)
  exact h.trans (by decide)

/-- C3: with both Fajr (Adhan 05:50) and Dhuhr (Adhan 12:45) present, the
boundary helper returns the Dhuhr Adhan minute 765 for Fajr, not the
estimated-sunrise minute (350 + 90) % 1440 = 440 that its own comment and the
claim prescribe; the sunrise value appears only when Dhuhr is absent from the
catalog. -/
theorem c3_fajr_boundary_is_dhuhr :
    get_next_prayer_adhan_time
        { prayerName := .fajr, adhanTime := "05:50", iqamaTime := some "06:00" }
        stdPrayers = .ok (some 765) ∧
    (765 : Nat) ≠ (350 + 90) % 1440 ∧
    get_next_prayer_adhan_time
        { prayerName := .fajr, adhanTime := "05:50", iqamaTime := some "06:00" }
        [{ prayerName := .fajr, adhanTime := "05:50", iqamaTime := some "06:00" }]
      = .ok (some ((350 + 90) % 1440)) := by decide

/-- C4: with the well-formed standard catalog, current mosque time 11:00
(minute 660) and 140 minutes of travel (arrival 13:20, past the Dhuhr
congregation window end 13:15), get_next_prayer raises NameError: the solo
branch of _evaluate_prayer_catchability reads the unbound name prayers.  The
claim that the entry point never propagates an exception is false. -/
theorem c4_solo_branch_name_error :
    get_next_prayer stdPrayers 140 660 0 (fun _ => none) none none =
      .error .nameError := by decide

/-- C5: a catalog whose Dhuhr carries the malformed time 25:00 makes
get_next_prayer raise ValueError from the fromisoformat sort key, aborting the
whole classification, while the same call without the malformed entry returns
a normal Fajr result: the malformed prayer is not dropped. -/
theorem c5_malformed_aborts :
    get_next_prayer
      [{ prayerName := .fajr, adhanTime := "05:50", iqamaTime := some "06:00" },
       { prayerName := .dhuhr, adhanTime := "25:00" }]
      15 300 0 (fun _ => none) none none = .error .valueError ∧
    get_next_prayer
      [{ prayerName := .fajr, adhanTime := "05:50", iqamaTime := some "06:00" }]
      15 300 0 (fun _ => none) none none =
      .ok (some { prayer := PrayerName.fajr, status := .canCatchWithImam,
                  canCatch := true, travelTimeMinutes := 15,
                  timeRemainingMinutes := 60, arrivalTime := 315,
                  prayerTime := "06:00", isDelayed := false }) := by decide

/-- C6 counterexample: _parse_time returns the out-of-range times 25:00 (from
input 25:00) and 25:30 (from 13:30 PM after the 12-hour conversion) instead of
rejecting them, and _normalize_time does not cleanly reject 25:00 either: its
fall-through recurses on the same string forever, exhausting the interpreter
stack. -/
theorem c6_counterexample :
    parse_time "25:00" = some "25:00" ∧
    parse_time "13:30 PM" = some "25:30" ∧
    normalize_time "25:00" = .error .recursionError :=
  ⟨by decide, by decide, normalize_loops_25 1000⟩

/-- C6 (amended): _normalize_time is range-sound — every time string it
successfully returns is rendered from an hour at most 23 and a minute at most
59 — while _parse_time performs no such validation (see the counterexample);
an out-of-range candidate makes _normalize_time recurse without bound rather
than fail cleanly. -/
theorem c6_normalize_range (s t : String)
    (h : normalize_time s = .ok (some t)) :
    ∃ hh mm, hh ≤ 23 ∧ mm ≤ 59 ∧ t = fmtHM hh mm :=
  normalize_fuel_range 1000 s.toList t h

/-- C6 witness: the amended statement applied to the input 06:30. -/
theorem c6_witness :
    ∃ hh mm, hh ≤ 23 ∧ mm ≤ 59 ∧ "06:30" = fmtHM hh mm :=
  c6_normalize_range "06:30" "06:30" (by decide)

/-- C7: the arrival instant used for classification is the current instant
plus the travel minutes, re-expressed in the mosque timezone (the wall-clock
difference between arrival and current in any fixed-offset timezone is the
travel duration); concretely, a traveler at 12:00 Pacific (offset -420) with
10 minutes travel to a mosque resolved to Mountain time (offset -360) by the
Denver bounding box arrives at 13:10 Mountain (minute 790) and gets
CAN_CATCH_WITH_IMAM for the Dhuhr Iqama 14:15 Mountain. -/
theorem c7_arrival_timezone :
    (∀ (ui : Int) (travel : Nat) (mtz : Int),
        compute_arrival_instant ui travel = ui + travel ∧
        wallClockIn (compute_arrival_instant ui travel) mtz - wallClockIn ui mtz = travel) ∧
    get_next_prayer denverPrayers 10 1140 (-420) (fun _ => none)
        (some ((39 : ℚ), (-105 : ℚ))) none =
      .ok (some { prayer := PrayerName.dhuhr, status := .canCatchWithImam,
                  canCatch := true, travelTimeMinutes := 10,
                  timeRemainingMinutes := 75, arrivalTime := 790,
                  prayerTime := "14:15", isDelayed := false }) := by
  refine ⟨fun ui travel mtz => ⟨rfl, ?_⟩, by decide⟩
  unfold compute_arrival_instant wallClockIn
  omega

/-- C8 counterexample: with a failing coordinate lookup, coordinates (0, 0)
outside both bounding boxes and no fallback timezone, the mosque timezone used
is the traveler timezone -420, not UTC; with a Dhuhr-only catalog and the
traveler at local noon this yields a Dhuhr CAN_CATCH_WITH_IMAM result, whereas
running the classifier core at the UTC wall clock would return nothing. -/
theorem c8_counterexample :
    mosqueTzUsed (fun _ => none) (some ((0 : ℚ), (0 : ℚ))) none (-420) = -420 ∧
    ((-420 : Int) ≠ 0) ∧
    get_next_prayer
      [{ prayerName := .dhuhr, adhanTime := "12:45", iqamaTime := some "13:00" }]
      0 1140 (-420) (fun _ => none) (some ((0 : ℚ), (0 : ℚ))) none =
      .ok (some { prayer := PrayerName.dhuhr, status := .canCatchWithImam,
                  canCatch := true, travelTimeMinutes := 0,
                  timeRemainingMinutes := 60, arrivalTime := 720,
                  prayerTime := "13:00", isDelayed := false }) ∧
    find_best_prayer_opportunity
      [{ prayerName := .dhuhr, adhanTime := "12:45", iqamaTime := some "13:00" }]
      (wallClockIn 1140 0) (wallClockIn 1140 0) 0 = .ok none := by decide

/-- C8 (amended): when the coordinate lookup fails, the static bounding boxes
do not match and no valid fallback timezone is supplied, classification
proceeds with the traveler timezone (that of the parsed current instant) as
the mosque timezone rather than aborting; this equals UTC only when the
traveler instant itself defaulted to the UTC server clock. -/
theorem c8_user_timezone_default (lookup : ℚ × ℚ → Option Int)
    (coords : Option (ℚ × ℚ)) (fallbackTz : Option Int) (userTz : Int)
    (hl : ∀ c, coords = some c → lookup c = none)
    (hb1 : ∀ lat lng, coords = some (lat, lng) →
      ¬(37 ≤ lat ∧ lat ≤ 38 ∧ -123 ≤ lng ∧ lng ≤ -121))
    (hb2 : ∀ lat lng, coords = some (lat, lng) →
      ¬(39 ≤ lat ∧ lat ≤ 40 ∧ -106 ≤ lng ∧ lng ≤ -104))
    (hf : fallbackTz = none) :
    get_mosque_timezone lookup coords fallbackTz = none ∧
    mosqueTzUsed lookup coords fallbackTz userTz = userTz := by
  have hg : get_mosque_timezone lookup coords fallbackTz = none := by
    cases coords with
    | none => simpa [get_mosque_timezone] using hf
    | some c =>
      obtain ⟨lat, lng⟩ := c
      simp only [get_mosque_timezone, hl (lat, lng) rfl]
      rw [if_neg (hb1 lat lng rfl), if_neg (hb2 lat lng rfl)]
      exact hf
  exact ⟨hg, by simp [mosqueTzUsed, hg]⟩

/-- C8 witness: the amended statement applied to a failing lookup, the
coordinates (0, 0) and a traveler timezone of -420 minutes. -/
theorem c8_witness :
    get_mosque_timezone (fun _ => none) (some ((0 : ℚ), (0 : ℚ))) none = none ∧
    mosqueTzUsed (fun _ => none) (some ((0 : ℚ), (0 : ℚ))) none (-420) = -420 := by
  refine c8_user_timezone_default _ _ _ _ (fun c _ => rfl) ?_ ?_ rfl
  · intro lat lng h
    simp only [Option.some.injEq, Prod.mk.injEq] at h
    obtain ⟨h1, h2⟩ := h
    subst h1; subst h2
    decide
  · intro lat lng h
    simp only [Option.some.injEq, Prod.mk.injEq] at h
    obtain ⟨h1, h2⟩ := h
    subst h1; subst h2
    decide

/-- C9: when every prayer of a catalog containing Fajr is past (its
Iqama-or-Adhan time of day at or before the current time of day) and no
congregation window contains the current time, the classifier returns
tomorrow Fajr with CAN_CATCH_WITH_IMAM, can_catch true and is_delayed false,
for every arrival instant and travel duration — no travel-time check is
applied. -/
theorem c9_rollover_tomorrow_fajr (prayers : List Prayer) (fp : Prayer)
    (ft : Nat) (cur arr : Int) (travel : Nat)
    (hnowin : prayers.all (noWindowB cur) = true)
    (hnoup : prayers.all (notUpcomingB cur) = true)
    (hfp : prayers.find? (fun q => q.prayerName = PrayerName.fajr) = some fp)
    (hft : fromisoformat (iqamaOrAdhan fp) = some ft) :
    find_best_prayer_opportunity prayers cur arr travel =
      .ok (some { prayer := PrayerName.fajr, status := .canCatchWithImam,
                  canCatch := true, travelTimeMinutes := travel,
                  timeRemainingMinutes := (dateOf cur + 1) * 1440 + (ft : Int) - cur - travel,
                  arrivalTime := arr, prayerTime := iqamaOrAdhan fp,
                  isDelayed := false }) := by
  have hname : fp.prayerName = PrayerName.fajr := by
    have := List.find?_some hfp
    simpa using this
  simp only [find_best_prayer_opportunity, find_next_upcoming_prayer]
  rw [find_current_none _ cur arr travel hnowin]
  rw [upcoming_loop_none prayers prayers cur arr travel hnoup]
  simp only [tomorrowFajrBranch, hfp, hft, hname]

/-- C9 witness: the standard catalog at current 23:00 (minute 1380), arrival
23:15, travel 15. -/
theorem c9_witness :
    find_best_prayer_opportunity stdPrayers 1380 1395 15 =
      .ok (some { prayer := PrayerName.fajr, status := .canCatchWithImam,
                  canCatch := true, travelTimeMinutes := 15,
                  timeRemainingMinutes := 405, arrivalTime := 1395,
                  prayerTime := "06:00", isDelayed := false }) := by
  have h := c9_rollover_tomorrow_fajr stdPrayers
    { prayerName := .fajr, adhanTime := "05:50", iqamaTime := some "06:00" }
    360 1380 1395 15 (by decide) (by decide) (by decide) (by decide)
  exact h.trans (by decide)

/-- C10: the decision fields (prayer name, status, can_catch) of the
classifier core depend only on the times of day of the mosque-local current
and arrival instants: shifting either by whole days leaves them unchanged
(also in the exceptional cases).  Concretely, a current time 23:58 with an
arrival 00:08 on the next day is compared as the wall clock 00:08, so the
arrival counts as before the Isha Iqama 23:59 and yields
CAN_CATCH_WITH_IMAM. -/
theorem c10_date_independence :
    (∀ (prayers : List Prayer) (cur arr d1 d2 : Int) (travel : Nat),
        resSummary (find_best_prayer_opportunity prayers (cur + 1440 * d1) (arr + 1440 * d2) travel)
          = resSummary (find_best_prayer_opportunity prayers cur arr travel)) ∧
    find_best_prayer_opportunity
        [{ prayerName := .isha, adhanTime := "23:45", iqamaTime := some "23:59" }]
        1438 1448 10 =
      .ok (some { prayer := PrayerName.isha, status := .canCatchWithImam,
                  canCatch := true, travelTimeMinutes := 10,
                  timeRemainingMinutes := 1, arrivalTime := 1448,
                  prayerTime := "23:59", isDelayed := false }) ∧
    todOf 1448 = 8 :=
  ⟨best_summary_shift, by decide, by decide⟩
